import Mathlib

/-!
Verification of the per-frame simulation core of `SideScrollerGame`
(src/src/components/SideScrollerGame.tsx).

Numbers are modelled as rationals. The per-frame updater passed to
`setGameState` inside `useAnimationFrame` is embedded as the pure function
`step`, written in single-assignment style: each reassignment of a local
variable in the source becomes a fresh `let`. The viewport measurement
`containerRef.current?.offsetWidth || 800` is modelled as `effectiveWidth`
over `Option ℚ`: `none` stands for an unavailable measurement, and a
measured width of `0` is falsy in JavaScript, so both fall back to `800`.
-/

namespace SideScrollerGame

/-- The `GameState` interface of the source. -/
structure GameState where
  playerX : ℚ
  playerY : ℚ
  velocityY : ℚ
  isJumping : Bool
  isRunning : Bool
  facingRight : Bool
  cameraX : ℚ
deriving DecidableEq, Repr

/-- The set of held logical keys read by the step: `left` stands for
`arrowleft`/`a`, `right` for `arrowright`/`d`, `jump` for
`arrowup`/`w`/space. -/
structure HeldKeys where
  left : Bool
  right : Bool
  jump : Bool
deriving DecidableEq, Repr

def GROUND_Y : ℚ := 72
def JUMP_FORCE : ℚ := -20
def GRAVITY : ℚ := 9/10
def MOVE_SPEED : ℚ := 7
def WORLD_WIDTH : ℚ := 8000

/-- `containerRef.current?.offsetWidth || 800`: an unavailable or zero
(falsy) measurement falls back to `800`. -/
def effectiveWidth : Option ℚ → ℚ
  | none => 800
  | some w => if w = 0 then 800 else w

/-- One frame of the `useAnimationFrame` updater: horizontal movement with
clamps, jump initiation guarded by `isJumping`, gravity integration with
ground snap, then camera derivation from the updated `playerX`. -/
def step (prev : GameState) (keys : HeldKeys) (viewport : Option ℚ) : GameState :=
  -- if (keysPressed has "arrowleft" or "a")
  let playerX1 := if keys.left then max 50 (prev.playerX - MOVE_SPEED) else prev.playerX
  let facingRight1 := if keys.left then false else prev.facingRight
  let isRunning1 := if keys.left then true else false
  -- if (keysPressed has "arrowright" or "d")
  let playerX2 := if keys.right then min (WORLD_WIDTH - 50) (playerX1 + MOVE_SPEED) else playerX1
  let facingRight2 := if keys.right then true else facingRight1
  let isRunning2 := if keys.right then true else isRunning1
  -- jump initiation, guarded by !isJumping
  let startJump := keys.jump && !prev.isJumping
  let velocityY1 := if startJump then JUMP_FORCE else prev.velocityY
  let isJumping1 := if startJump then true else prev.isJumping
  -- vertical integration (velocity before position), then ground snap
  let velocityY2 := velocityY1 + GRAVITY
  let playerY1 := prev.playerY + velocityY2
  let playerY2 := if isJumping1 then (if playerY1 ≥ GROUND_Y then GROUND_Y else playerY1) else prev.playerY
  let velocityY3 := if isJumping1 then (if playerY1 ≥ GROUND_Y then 0 else velocityY2) else velocityY1
  let isJumping2 := if isJumping1 then (if playerY1 ≥ GROUND_Y then false else true) else isJumping1
  -- camera derivation
  let containerWidth := effectiveWidth viewport
  let targetCameraX := playerX2 - containerWidth / 3
  let cameraX := max 0 (min (WORLD_WIDTH - containerWidth) targetCameraX)
  { playerX := playerX2, playerY := playerY2, velocityY := velocityY3,
    isJumping := isJumping2, isRunning := isRunning2,
    facingRight := facingRight2, cameraX := cameraX }

/-- The `Landmark` interface of the source. -/
structure Landmark where
  id : String
  x : ℚ
  image : String
  width : ℚ
  height : ℚ
deriving DecidableEq, Repr

/-- The static landmark list of the source. -/
def landmarks : List Landmark :=
  [ ⟨"cn-tower", 800, "/game/toronto/landmarks/cn-tower.jpg", 200, 400⟩,
    ⟨"streetcar", 1800, "/game/toronto/landmarks/streetcar.jpg", 300, 150⟩,
    ⟨"city-hall", 3000, "/game/toronto/landmarks/city-hall.jpg", 400, 250⟩,
    ⟨"toronto-sign", 4200, "/game/toronto/landmarks/toronto-sign.jpg", 350, 120⟩,
    ⟨"rogers-centre", 5500, "/game/toronto/landmarks/rogers-centre.jpg", 450, 200⟩,
    ⟨"raccoon", 6800, "/game/toronto/landmarks/raccoon.jpg", 150, 150⟩ ]

/-- The per-landmark culling test of the render: the landmark is skipped
exactly when `screenX < -width || screenX > containerWidth + 100`. -/
def renderedLandmark (lm : Landmark) (cameraX : ℚ) (viewport : Option ℚ) : Bool :=
  let screenX := lm.x - cameraX
  let containerWidth := effectiveWidth viewport
  if screenX < -lm.width ∨ screenX > containerWidth + 100 then false else true

/-- The initial `useState` value. -/
def initialState : GameState :=
  { playerX := 150, playerY := GROUND_Y, velocityY := 0,
    isJumping := false, isRunning := false, facingRight := true, cameraX := 0 }

def noKeys : HeldKeys := ⟨false, false, false⟩

def jumpOnly : HeldKeys := ⟨false, false, true⟩

def rightOnly : HeldKeys := ⟨false, true, false⟩

/-- The vertical components of a state: `playerY`, `velocityY`, `isJumping`. -/
def vert (s : GameState) : ℚ × ℚ × Bool := (s.playerY, s.velocityY, s.isJumping)

/-- The jump scenario trajectory: one step from `s` with the jump key held,
then repeated steps with no keys held (fallback viewport). -/
def c3Traj (s : GameState) : ℕ → GameState
  | 0 => step s jumpOnly none
  | n + 1 => step (c3Traj s n) noKeys none

/-- Grounded states carry no vertical speed, and the player never ends a
frame below the ground line. -/
def goodState (s : GameState) : Prop :=
  (s.isJumping = false → s.velocityY = 0) ∧ s.playerY ≤ GROUND_Y

/-! ### Helper lemmas -/

/-- Clamping into `[0, a]` and into `[0, max 0 a]` agree: the outer
`max 0` absorbs a negative upper bound. -/
lemma clamp_max_zero_eq (a t : ℚ) : max 0 (min a t) = max 0 (min (max 0 a) t) := by
  rcases le_total a 0 with h | h
  · have h1 : min a t ≤ 0 := le_trans (min_le_left a t) h
    rw [max_eq_left h, max_eq_left h1, max_eq_left (min_le_left 0 t)]
  · rw [max_eq_right h]

/-- The camera written by `step` is the clamp of the target derived from
the updated `playerX`. -/
lemma step_cameraX_def (s : GameState) (K : HeldKeys) (v : Option ℚ) :
    (step s K v).cameraX
      = max 0 (min (WORLD_WIDTH - effectiveWidth v)
          ((step s K v).playerX - effectiveWidth v / 3)) := rfl

/-- The vertical components written by `step` depend only on the vertical
components of the previous state and on the jump key. -/
lemma vert_step_congr (s t : GameState) (K : HeldKeys) (v : Option ℚ)
    (h : vert s = vert t) : vert (step s K v) = vert (step t K v) := by
  have h1 : s.playerY = t.playerY := congrArg Prod.fst h
  have h2 : s.velocityY = t.velocityY := congrArg (fun p => p.2.1) h
  have h3 : s.isJumping = t.isJumping := congrArg (fun p => p.2.2) h
  simp only [vert, step, h1, h2, h3]

/-- The vertical components of the jump-scenario trajectory depend only on
the vertical components of the starting state. -/
lemma c3Traj_vert_congr (s t : GameState) (h : vert s = vert t) :
    ∀ k, vert (c3Traj s k) = vert (c3Traj t k) := by
  intro k
  induction k with
  | zero => exact vert_step_congr s t jumpOnly none h
  | succ n ih => exact vert_step_congr _ _ noKeys none ih

/-! ### Claims -/

/-- Claim C1: for every input state with `50 ≤ playerX ≤ WORLD_WIDTH - 50`
and every held-key set and viewport width, the state returned by one
simulation step satisfies `50 ≤ playerX ≤ WORLD_WIDTH - 50`; when neither
horizontal key is held, `playerX` is unchanged. -/
theorem playerX_bounds_preserved (s : GameState) (K : HeldKeys) (v : Option ℚ)
    (h1 : 50 ≤ s.playerX) (h2 : s.playerX ≤ WORLD_WIDTH - 50) :
    50 ≤ (step s K v).playerX ∧ (step s K v).playerX ≤ WORLD_WIDTH - 50 ∧
      (K.left = false → K.right = false → (step s K v).playerX = s.playerX) := by
  obtain ⟨l, r, j⟩ := K
  have hww : (50:ℚ) ≤ WORLD_WIDTH - 50 := by norm_num [WORLD_WIDTH]
  have hms : (0:ℚ) ≤ MOVE_SPEED := by norm_num [MOVE_SPEED]
  refine ⟨?_, ?_, fun hl hr => ?_⟩
  · cases l
    · cases r
      · exact h1
      · show (50:ℚ) ≤ min (WORLD_WIDTH - 50) (s.playerX + MOVE_SPEED)
        exact le_min hww (by linarith)
    · cases r
      · show (50:ℚ) ≤ max 50 (s.playerX - MOVE_SPEED)
        exact le_max_left _ _
      · show (50:ℚ) ≤ min (WORLD_WIDTH - 50) (max 50 (s.playerX - MOVE_SPEED) + MOVE_SPEED)
        exact le_min hww (by linarith [le_max_left (50:ℚ) (s.playerX - MOVE_SPEED)])
  · cases l
    · cases r
      · exact h2
      · show min (WORLD_WIDTH - 50) (s.playerX + MOVE_SPEED) ≤ WORLD_WIDTH - 50
        exact min_le_left _ _
    · cases r
      · show max 50 (s.playerX - MOVE_SPEED) ≤ WORLD_WIDTH - 50
        exact max_le hww (by linarith)
      · show min (WORLD_WIDTH - 50) (max 50 (s.playerX - MOVE_SPEED) + MOVE_SPEED)
            ≤ WORLD_WIDTH - 50
        exact min_le_left _ _
  · cases l
    · cases r
      · rfl
      · simp at hr
    · simp at hl

/-- Witness for C1 at the initial state with the right key held. -/
theorem playerX_bounds_preserved_witness :
    (50 ≤ initialState.playerX ∧ initialState.playerX ≤ WORLD_WIDTH - 50) ∧
      (50 ≤ (step initialState rightOnly none).playerX ∧
        (step initialState rightOnly none).playerX ≤ WORLD_WIDTH - 50 ∧
        (rightOnly.left = false → rightOnly.right = false →
          (step initialState rightOnly none).playerX = initialState.playerX)) :=
  ⟨⟨by norm_num [initialState], by norm_num [initialState, WORLD_WIDTH]⟩,
    playerX_bounds_preserved initialState rightOnly none
      (by norm_num [initialState]) (by norm_num [initialState, WORLD_WIDTH])⟩

/-- Claim C2: after every step, `cameraX` equals the clamp of
`playerX - w / 3` into `[0, max 0 (WORLD_WIDTH - w)]` where `w` is the
effective viewport width, the fallback `800` replaces an unavailable
measurement, and `0 ≤ cameraX ≤ max 0 (WORLD_WIDTH - w)` holds. -/
theorem cameraX_clamped_after_step (s : GameState) (K : HeldKeys) (v : Option ℚ) :
    (step s K v).cameraX
        = max 0 (min (max 0 (WORLD_WIDTH - effectiveWidth v))
            ((step s K v).playerX - effectiveWidth v / 3)) ∧
      0 ≤ (step s K v).cameraX ∧
      (step s K v).cameraX ≤ max 0 (WORLD_WIDTH - effectiveWidth v) ∧
      effectiveWidth none = 800 := by
  refine ⟨?_, ?_, ?_, rfl⟩
  · rw [step_cameraX_def]
    exact clamp_max_zero_eq _ _
  · rw [step_cameraX_def]
    exact le_max_left 0 _
  · rw [step_cameraX_def]
    exact max_le (le_max_left 0 _) (le_trans (min_le_left _ _) (le_max_right 0 _))

/-- Claim C3: from any grounded state (`playerY = GROUND_Y`,
`velocityY = 0`, `isJumping = false`), one step with the jump key held and
then repeated steps with no keys held make `playerY` strictly decrease for
the first 21 frames, stay airborne until frame 43, land at frame 43 with
`playerY = GROUND_Y`, `velocityY = 0`, `isJumping = false`, and `playerY`
never exceeds `GROUND_Y` at any observed frame (the ground snap ends the
jump inside the landing step). -/
theorem jump_round_trip (s : GameState) (hY : s.playerY = GROUND_Y)
    (hV : s.velocityY = 0) (hJ : s.isJumping = false) :
    (c3Traj s 0).playerY < GROUND_Y ∧
      (∀ k, k < 21 → (c3Traj s (k + 1)).playerY < (c3Traj s k).playerY) ∧
      (∀ k, k < 43 → (c3Traj s k).isJumping = true) ∧
      (c3Traj s 43).playerY = GROUND_Y ∧ (c3Traj s 43).velocityY = 0 ∧
      (c3Traj s 43).isJumping = false ∧
      (∀ k, k ≤ 43 → (c3Traj s k).playerY ≤ GROUND_Y) := by
  have hvert : vert s = vert initialState := by
    simp only [vert, initialState, hY, hV, hJ]
  have hcong := c3Traj_vert_congr s initialState hvert
  have hy : ∀ k, (c3Traj s k).playerY = (c3Traj initialState k).playerY :=
    fun k => congrArg Prod.fst (hcong k)
  have hvel : ∀ k, (c3Traj s k).velocityY = (c3Traj initialState k).velocityY :=
    fun k => congrArg (fun p => p.2.1) (hcong k)
  have hjmp : ∀ k, (c3Traj s k).isJumping = (c3Traj initialState k).isJumping :=
    fun k => congrArg (fun p => p.2.2) (hcong k)
  simp only [hy, hvel, hjmp]
  have t0 : c3Traj initialState 0 = (⟨150, 529/10, (-191/10 : ℚ), true, false, true, 0⟩ : GameState) := by
    rw [c3Traj]
    norm_num [step, noKeys, jumpOnly, initialState, GROUND_Y, JUMP_FORCE, GRAVITY, MOVE_SPEED, WORLD_WIDTH, effectiveWidth, min_def, max_def, GameState.mk.injEq]
  have t1 : c3Traj initialState 1 = (⟨150, 347/10, (-91/5 : ℚ), true, false, true, 0⟩ : GameState) := by
    rw [show (1:ℕ) = 0 + 1 from rfl, c3Traj, t0]
    norm_num [step, noKeys, jumpOnly, initialState, GROUND_Y, JUMP_FORCE, GRAVITY, MOVE_SPEED, WORLD_WIDTH, effectiveWidth, min_def, max_def, GameState.mk.injEq]
  have t2 : c3Traj initialState 2 = (⟨150, 87/5, (-173/10 : ℚ), true, false, true, 0⟩ : GameState) := by
    rw [show (2:ℕ) = 1 + 1 from rfl, c3Traj, t1]
    norm_num [step, noKeys, jumpOnly, initialState, GROUND_Y, JUMP_FORCE, GRAVITY, MOVE_SPEED, WORLD_WIDTH, effectiveWidth, min_def, max_def, GameState.mk.injEq]
  have t3 : c3Traj initialState 3 = (⟨150, 1, (-82/5 : ℚ), true, false, true, 0⟩ : GameState) := by
    rw [show (3:ℕ) = 2 + 1 from rfl, c3Traj, t2]
    norm_num [step, noKeys, jumpOnly, initialState, GROUND_Y, JUMP_FORCE, GRAVITY, MOVE_SPEED, WORLD_WIDTH, effectiveWidth, min_def, max_def, GameState.mk.injEq]
  have t4 : c3Traj initialState 4 = (⟨150, (-29/2 : ℚ), (-31/2 : ℚ), true, false, true, 0⟩ : GameState) := by
    rw [show (4:ℕ) = 3 + 1 from rfl, c3Traj, t3]
    norm_num [step, noKeys, jumpOnly, initialState, GROUND_Y, JUMP_FORCE, GRAVITY, MOVE_SPEED, WORLD_WIDTH, effectiveWidth, min_def, max_def, GameState.mk.injEq]
  have t5 : c3Traj initialState 5 = (⟨150, (-291/10 : ℚ), (-73/5 : ℚ), true, false, true, 0⟩ : GameState) := by
    rw [show (5:ℕ) = 4 + 1 from rfl, c3Traj, t4]
    norm_num [step, noKeys, jumpOnly, initialState, GROUND_Y, JUMP_FORCE, GRAVITY, MOVE_SPEED, WORLD_WIDTH, effectiveWidth, min_def, max_def, GameState.mk.injEq]
  have t6 : c3Traj initialState 6 = (⟨150, (-214/5 : ℚ), (-137/10 : ℚ), true, false, true, 0⟩ : GameState) := by
    rw [show (6:ℕ) = 5 + 1 from rfl, c3Traj, t5]
    norm_num [step, noKeys, jumpOnly, initialState, GROUND_Y, JUMP_FORCE, GRAVITY, MOVE_SPEED, WORLD_WIDTH, effectiveWidth, min_def, max_def, GameState.mk.injEq]
  have t7 : c3Traj initialState 7 = (⟨150, (-278/5 : ℚ), (-64/5 : ℚ), true, false, true, 0⟩ : GameState) := by
    rw [show (7:ℕ) = 6 + 1 from rfl, c3Traj, t6]
    norm_num [step, noKeys, jumpOnly, initialState, GROUND_Y, JUMP_FORCE, GRAVITY, MOVE_SPEED, WORLD_WIDTH, effectiveWidth, min_def, max_def, GameState.mk.injEq]
  have t8 : c3Traj initialState 8 = (⟨150, (-135/2 : ℚ), (-119/10 : ℚ), true, false, true, 0⟩ : GameState) := by
    rw [show (8:ℕ) = 7 + 1 from rfl, c3Traj, t7]
    norm_num [step, noKeys, jumpOnly, initialState, GROUND_Y, JUMP_FORCE, GRAVITY, MOVE_SPEED, WORLD_WIDTH, effectiveWidth, min_def, max_def, GameState.mk.injEq]
  have t9 : c3Traj initialState 9 = (⟨150, (-157/2 : ℚ), (-11 : ℚ), true, false, true, 0⟩ : GameState) := by
    rw [show (9:ℕ) = 8 + 1 from rfl, c3Traj, t8]
    norm_num [step, noKeys, jumpOnly, initialState, GROUND_Y, JUMP_FORCE, GRAVITY, MOVE_SPEED, WORLD_WIDTH, effectiveWidth, min_def, max_def, GameState.mk.injEq]
  have t10 : c3Traj initialState 10 = (⟨150, (-443/5 : ℚ), (-101/10 : ℚ), true, false, true, 0⟩ : GameState) := by
    rw [show (10:ℕ) = 9 + 1 from rfl, c3Traj, t9]
    norm_num [step, noKeys, jumpOnly, initialState, GROUND_Y, JUMP_FORCE, GRAVITY, MOVE_SPEED, WORLD_WIDTH, effectiveWidth, min_def, max_def, GameState.mk.injEq]
  have t11 : c3Traj initialState 11 = (⟨150, (-489/5 : ℚ), (-46/5 : ℚ), true, false, true, 0⟩ : GameState) := by
    rw [show (11:ℕ) = 10 + 1 from rfl, c3Traj, t10]
    norm_num [step, noKeys, jumpOnly, initialState, GROUND_Y, JUMP_FORCE, GRAVITY, MOVE_SPEED, WORLD_WIDTH, effectiveWidth, min_def, max_def, GameState.mk.injEq]
  have t12 : c3Traj initialState 12 = (⟨150, (-1061/10 : ℚ), (-83/10 : ℚ), true, false, true, 0⟩ : GameState) := by
    rw [show (12:ℕ) = 11 + 1 from rfl, c3Traj, t11]
    norm_num [step, noKeys, jumpOnly, initialState, GROUND_Y, JUMP_FORCE, GRAVITY, MOVE_SPEED, WORLD_WIDTH, effectiveWidth, min_def, max_def, GameState.mk.injEq]
  have t13 : c3Traj initialState 13 = (⟨150, (-227/2 : ℚ), (-37/5 : ℚ), true, false, true, 0⟩ : GameState) := by
    rw [show (13:ℕ) = 12 + 1 from rfl, c3Traj, t12]
    norm_num [step, noKeys, jumpOnly, initialState, GROUND_Y, JUMP_FORCE, GRAVITY, MOVE_SPEED, WORLD_WIDTH, effectiveWidth, min_def, max_def, GameState.mk.injEq]
  have t14 : c3Traj initialState 14 = (⟨150, (-120 : ℚ), (-13/2 : ℚ), true, false, true, 0⟩ : GameState) := by
    rw [show (14:ℕ) = 13 + 1 from rfl, c3Traj, t13]
    norm_num [step, noKeys, jumpOnly, initialState, GROUND_Y, JUMP_FORCE, GRAVITY, MOVE_SPEED, WORLD_WIDTH, effectiveWidth, min_def, max_def, GameState.mk.injEq]
  have t15 : c3Traj initialState 15 = (⟨150, (-628/5 : ℚ), (-28/5 : ℚ), true, false, true, 0⟩ : GameState) := by
    rw [show (15:ℕ) = 14 + 1 from rfl, c3Traj, t14]
    norm_num [step, noKeys, jumpOnly, initialState, GROUND_Y, JUMP_FORCE, GRAVITY, MOVE_SPEED, WORLD_WIDTH, effectiveWidth, min_def, max_def, GameState.mk.injEq]
  have t16 : c3Traj initialState 16 = (⟨150, (-1303/10 : ℚ), (-47/10 : ℚ), true, false, true, 0⟩ : GameState) := by
    rw [show (16:ℕ) = 15 + 1 from rfl, c3Traj, t15]
    norm_num [step, noKeys, jumpOnly, initialState, GROUND_Y, JUMP_FORCE, GRAVITY, MOVE_SPEED, WORLD_WIDTH, effectiveWidth, min_def, max_def, GameState.mk.injEq]
  have t17 : c3Traj initialState 17 = (⟨150, (-1341/10 : ℚ), (-19/5 : ℚ), true, false, true, 0⟩ : GameState) := by
    rw [show (17:ℕ) = 16 + 1 from rfl, c3Traj, t16]
    norm_num [step, noKeys, jumpOnly, initialState, GROUND_Y, JUMP_FORCE, GRAVITY, MOVE_SPEED, WORLD_WIDTH, effectiveWidth, min_def, max_def, GameState.mk.injEq]
  have t18 : c3Traj initialState 18 = (⟨150, (-137 : ℚ), (-29/10 : ℚ), true, false, true, 0⟩ : GameState) := by
    rw [show (18:ℕ) = 17 + 1 from rfl, c3Traj, t17]
    norm_num [step, noKeys, jumpOnly, initialState, GROUND_Y, JUMP_FORCE, GRAVITY, MOVE_SPEED, WORLD_WIDTH, effectiveWidth, min_def, max_def, GameState.mk.injEq]
  have t19 : c3Traj initialState 19 = (⟨150, (-139 : ℚ), (-2 : ℚ), true, false, true, 0⟩ : GameState) := by
    rw [show (19:ℕ) = 18 + 1 from rfl, c3Traj, t18]
    norm_num [step, noKeys, jumpOnly, initialState, GROUND_Y, JUMP_FORCE, GRAVITY, MOVE_SPEED, WORLD_WIDTH, effectiveWidth, min_def, max_def, GameState.mk.injEq]
  have t20 : c3Traj initialState 20 = (⟨150, (-1401/10 : ℚ), (-11/10 : ℚ), true, false, true, 0⟩ : GameState) := by
    rw [show (20:ℕ) = 19 + 1 from rfl, c3Traj, t19]
    norm_num [step, noKeys, jumpOnly, initialState, GROUND_Y, JUMP_FORCE, GRAVITY, MOVE_SPEED, WORLD_WIDTH, effectiveWidth, min_def, max_def, GameState.mk.injEq]
  have t21 : c3Traj initialState 21 = (⟨150, (-1403/10 : ℚ), (-1/5 : ℚ), true, false, true, 0⟩ : GameState) := by
    rw [show (21:ℕ) = 20 + 1 from rfl, c3Traj, t20]
    norm_num [step, noKeys, jumpOnly, initialState, GROUND_Y, JUMP_FORCE, GRAVITY, MOVE_SPEED, WORLD_WIDTH, effectiveWidth, min_def, max_def, GameState.mk.injEq]
  have t22 : c3Traj initialState 22 = (⟨150, (-698/5 : ℚ), 7/10, true, false, true, 0⟩ : GameState) := by
    rw [show (22:ℕ) = 21 + 1 from rfl, c3Traj, t21]
    norm_num [step, noKeys, jumpOnly, initialState, GROUND_Y, JUMP_FORCE, GRAVITY, MOVE_SPEED, WORLD_WIDTH, effectiveWidth, min_def, max_def, GameState.mk.injEq]
  have t23 : c3Traj initialState 23 = (⟨150, (-138 : ℚ), 8/5, true, false, true, 0⟩ : GameState) := by
    rw [show (23:ℕ) = 22 + 1 from rfl, c3Traj, t22]
    norm_num [step, noKeys, jumpOnly, initialState, GROUND_Y, JUMP_FORCE, GRAVITY, MOVE_SPEED, WORLD_WIDTH, effectiveWidth, min_def, max_def, GameState.mk.injEq]
  have t24 : c3Traj initialState 24 = (⟨150, (-271/2 : ℚ), 5/2, true, false, true, 0⟩ : GameState) := by
    rw [show (24:ℕ) = 23 + 1 from rfl, c3Traj, t23]
    norm_num [step, noKeys, jumpOnly, initialState, GROUND_Y, JUMP_FORCE, GRAVITY, MOVE_SPEED, WORLD_WIDTH, effectiveWidth, min_def, max_def, GameState.mk.injEq]
  have t25 : c3Traj initialState 25 = (⟨150, (-1321/10 : ℚ), 17/5, true, false, true, 0⟩ : GameState) := by
    rw [show (25:ℕ) = 24 + 1 from rfl, c3Traj, t24]
    norm_num [step, noKeys, jumpOnly, initialState, GROUND_Y, JUMP_FORCE, GRAVITY, MOVE_SPEED, WORLD_WIDTH, effectiveWidth, min_def, max_def, GameState.mk.injEq]
  have t26 : c3Traj initialState 26 = (⟨150, (-639/5 : ℚ), 43/10, true, false, true, 0⟩ : GameState) := by
    rw [show (26:ℕ) = 25 + 1 from rfl, c3Traj, t25]
    norm_num [step, noKeys, jumpOnly, initialState, GROUND_Y, JUMP_FORCE, GRAVITY, MOVE_SPEED, WORLD_WIDTH, effectiveWidth, min_def, max_def, GameState.mk.injEq]
  have t27 : c3Traj initialState 27 = (⟨150, (-613/5 : ℚ), 26/5, true, false, true, 0⟩ : GameState) := by
    rw [show (27:ℕ) = 26 + 1 from rfl, c3Traj, t26]
    norm_num [step, noKeys, jumpOnly, initialState, GROUND_Y, JUMP_FORCE, GRAVITY, MOVE_SPEED, WORLD_WIDTH, effectiveWidth, min_def, max_def, GameState.mk.injEq]
  have t28 : c3Traj initialState 28 = (⟨150, (-233/2 : ℚ), 61/10, true, false, true, 0⟩ : GameState) := by
    rw [show (28:ℕ) = 27 + 1 from rfl, c3Traj, t27]
    norm_num [step, noKeys, jumpOnly, initialState, GROUND_Y, JUMP_FORCE, GRAVITY, MOVE_SPEED, WORLD_WIDTH, effectiveWidth, min_def, max_def, GameState.mk.injEq]
  have t29 : c3Traj initialState 29 = (⟨150, (-219/2 : ℚ), 7, true, false, true, 0⟩ : GameState) := by
    rw [show (29:ℕ) = 28 + 1 from rfl, c3Traj, t28]
    norm_num [step, noKeys, jumpOnly, initialState, GROUND_Y, JUMP_FORCE, GRAVITY, MOVE_SPEED, WORLD_WIDTH, effectiveWidth, min_def, max_def, GameState.mk.injEq]
  have t30 : c3Traj initialState 30 = (⟨150, (-508/5 : ℚ), 79/10, true, false, true, 0⟩ : GameState) := by
    rw [show (30:ℕ) = 29 + 1 from rfl, c3Traj, t29]
    norm_num [step, noKeys, jumpOnly, initialState, GROUND_Y, JUMP_FORCE, GRAVITY, MOVE_SPEED, WORLD_WIDTH, effectiveWidth, min_def, max_def, GameState.mk.injEq]
  have t31 : c3Traj initialState 31 = (⟨150, (-464/5 : ℚ), 44/5, true, false, true, 0⟩ : GameState) := by
    rw [show (31:ℕ) = 30 + 1 from rfl, c3Traj, t30]
    norm_num [step, noKeys, jumpOnly, initialState, GROUND_Y, JUMP_FORCE, GRAVITY, MOVE_SPEED, WORLD_WIDTH, effectiveWidth, min_def, max_def, GameState.mk.injEq]
  have t32 : c3Traj initialState 32 = (⟨150, (-831/10 : ℚ), 97/10, true, false, true, 0⟩ : GameState) := by
    rw [show (32:ℕ) = 31 + 1 from rfl, c3Traj, t31]
    norm_num [step, noKeys, jumpOnly, initialState, GROUND_Y, JUMP_FORCE, GRAVITY, MOVE_SPEED, WORLD_WIDTH, effectiveWidth, min_def, max_def, GameState.mk.injEq]
  have t33 : c3Traj initialState 33 = (⟨150, (-145/2 : ℚ), 53/5, true, false, true, 0⟩ : GameState) := by
    rw [show (33:ℕ) = 32 + 1 from rfl, c3Traj, t32]
    norm_num [step, noKeys, jumpOnly, initialState, GROUND_Y, JUMP_FORCE, GRAVITY, MOVE_SPEED, WORLD_WIDTH, effectiveWidth, min_def, max_def, GameState.mk.injEq]
  have t34 : c3Traj initialState 34 = (⟨150, (-61 : ℚ), 23/2, true, false, true, 0⟩ : GameState) := by
    rw [show (34:ℕ) = 33 + 1 from rfl, c3Traj, t33]
    norm_num [step, noKeys, jumpOnly, initialState, GROUND_Y, JUMP_FORCE, GRAVITY, MOVE_SPEED, WORLD_WIDTH, effectiveWidth, min_def, max_def, GameState.mk.injEq]
  have t35 : c3Traj initialState 35 = (⟨150, (-243/5 : ℚ), 62/5, true, false, true, 0⟩ : GameState) := by
    rw [show (35:ℕ) = 34 + 1 from rfl, c3Traj, t34]
    norm_num [step, noKeys, jumpOnly, initialState, GROUND_Y, JUMP_FORCE, GRAVITY, MOVE_SPEED, WORLD_WIDTH, effectiveWidth, min_def, max_def, GameState.mk.injEq]
  have t36 : c3Traj initialState 36 = (⟨150, (-353/10 : ℚ), 133/10, true, false, true, 0⟩ : GameState) := by
    rw [show (36:ℕ) = 35 + 1 from rfl, c3Traj, t35]
    norm_num [step, noKeys, jumpOnly, initialState, GROUND_Y, JUMP_FORCE, GRAVITY, MOVE_SPEED, WORLD_WIDTH, effectiveWidth, min_def, max_def, GameState.mk.injEq]
  have t37 : c3Traj initialState 37 = (⟨150, (-211/10 : ℚ), 71/5, true, false, true, 0⟩ : GameState) := by
    rw [show (37:ℕ) = 36 + 1 from rfl, c3Traj, t36]
    norm_num [step, noKeys, jumpOnly, initialState, GROUND_Y, JUMP_FORCE, GRAVITY, MOVE_SPEED, WORLD_WIDTH, effectiveWidth, min_def, max_def, GameState.mk.injEq]
  have t38 : c3Traj initialState 38 = (⟨150, (-6 : ℚ), 151/10, true, false, true, 0⟩ : GameState) := by
    rw [show (38:ℕ) = 37 + 1 from rfl, c3Traj, t37]
    norm_num [step, noKeys, jumpOnly, initialState, GROUND_Y, JUMP_FORCE, GRAVITY, MOVE_SPEED, WORLD_WIDTH, effectiveWidth, min_def, max_def, GameState.mk.injEq]
  have t39 : c3Traj initialState 39 = (⟨150, 10, 16, true, false, true, 0⟩ : GameState) := by
    rw [show (39:ℕ) = 38 + 1 from rfl, c3Traj, t38]
    norm_num [step, noKeys, jumpOnly, initialState, GROUND_Y, JUMP_FORCE, GRAVITY, MOVE_SPEED, WORLD_WIDTH, effectiveWidth, min_def, max_def, GameState.mk.injEq]
  have t40 : c3Traj initialState 40 = (⟨150, 269/10, 169/10, true, false, true, 0⟩ : GameState) := by
    rw [show (40:ℕ) = 39 + 1 from rfl, c3Traj, t39]
    norm_num [step, noKeys, jumpOnly, initialState, GROUND_Y, JUMP_FORCE, GRAVITY, MOVE_SPEED, WORLD_WIDTH, effectiveWidth, min_def, max_def, GameState.mk.injEq]
  have t41 : c3Traj initialState 41 = (⟨150, 447/10, 89/5, true, false, true, 0⟩ : GameState) := by
    rw [show (41:ℕ) = 40 + 1 from rfl, c3Traj, t40]
    norm_num [step, noKeys, jumpOnly, initialState, GROUND_Y, JUMP_FORCE, GRAVITY, MOVE_SPEED, WORLD_WIDTH, effectiveWidth, min_def, max_def, GameState.mk.injEq]
  have t42 : c3Traj initialState 42 = (⟨150, 317/5, 187/10, true, false, true, 0⟩ : GameState) := by
    rw [show (42:ℕ) = 41 + 1 from rfl, c3Traj, t41]
    norm_num [step, noKeys, jumpOnly, initialState, GROUND_Y, JUMP_FORCE, GRAVITY, MOVE_SPEED, WORLD_WIDTH, effectiveWidth, min_def, max_def, GameState.mk.injEq]
  have t43 : c3Traj initialState 43 = (⟨150, 72, 0, false, false, true, 0⟩ : GameState) := by
    rw [show (43:ℕ) = 42 + 1 from rfl, c3Traj, t42]
    norm_num [step, noKeys, jumpOnly, initialState, GROUND_Y, JUMP_FORCE, GRAVITY, MOVE_SPEED, WORLD_WIDTH, effectiveWidth, min_def, max_def, GameState.mk.injEq]
  refine ⟨?_, ?_, ?_, ?_, ?_, ?_, ?_⟩
  · rw [t0]
    norm_num [GROUND_Y]
  · intro k hk
    interval_cases k <;>
      simp only [t0, t1, t2, t3, t4, t5, t6, t7, t8, t9, t10, t11, t12, t13, t14,
        t15, t16, t17, t18, t19, t20, t21] <;> norm_num
  · intro k hk
    interval_cases k <;>
      simp only [t0, t1, t2, t3, t4, t5, t6, t7, t8, t9, t10, t11, t12, t13, t14,
        t15, t16, t17, t18, t19, t20, t21, t22, t23, t24, t25, t26, t27, t28, t29,
        t30, t31, t32, t33, t34, t35, t36, t37, t38, t39, t40, t41, t42]
  · rw [t43]
    norm_num [GROUND_Y]
  · rw [t43]
  · rw [t43]
  · intro k hk
    interval_cases k <;>
      simp only [t0, t1, t2, t3, t4, t5, t6, t7, t8, t9, t10, t11, t12, t13, t14,
        t15, t16, t17, t18, t19, t20, t21, t22, t23, t24, t25, t26, t27, t28, t29,
        t30, t31, t32, t33, t34, t35, t36, t37, t38, t39, t40, t41, t42, t43] <;>
      norm_num [GROUND_Y]

/-- Witness for C3 at the initial state. -/
theorem jump_round_trip_witness :
    (c3Traj initialState 0).playerY < GROUND_Y ∧
      (∀ k, k < 21 →
        (c3Traj initialState (k + 1)).playerY < (c3Traj initialState k).playerY) ∧
      (∀ k, k < 43 → (c3Traj initialState k).isJumping = true) ∧
      (c3Traj initialState 43).playerY = GROUND_Y ∧
      (c3Traj initialState 43).velocityY = 0 ∧
      (c3Traj initialState 43).isJumping = false ∧
      (∀ k, k ≤ 43 → (c3Traj initialState k).playerY ≤ GROUND_Y) :=
  jump_round_trip initialState rfl rfl rfl

/-- Claim C4: holding the jump key while airborne has no effect — with
`isJumping = true`, a step with the jump key held returns exactly the same
state as a step without it. -/
theorem airborne_jump_key_no_effect (s : GameState) (l r : Bool) (v : Option ℚ)
    (h : s.isJumping = true) :
    step s ⟨l, r, true⟩ v = step s ⟨l, r, false⟩ v := by
  simp only [step, h]
  simp

/-- Witness for C4 at a concrete airborne state. -/
theorem airborne_jump_key_no_effect_witness :
    step ⟨150, 40, -5, true, false, true, 0⟩ ⟨false, false, true⟩ none
      = step ⟨150, 40, -5, true, false, true, 0⟩ ⟨false, false, false⟩ none :=
  airborne_jump_key_no_effect ⟨150, 40, -5, true, false, true, 0⟩ false false none rfl

/-- Claim C5: from a grounded state, stepping with no keys held is
idempotent — after one normalizing step (which clears `isRunning` and
re-clamps the camera) the state is a fixpoint, and the step changes none
of `playerX`, `playerY`, `velocityY`, `facingRight`. -/
theorem idle_step_idempotent (s : GameState) (v : Option ℚ)
    (h : s.isJumping = false) :
    step (step s noKeys v) noKeys v = step s noKeys v ∧
      (step s noKeys v).playerX = s.playerX ∧
      (step s noKeys v).playerY = s.playerY ∧
      (step s noKeys v).velocityY = s.velocityY ∧
      (step s noKeys v).facingRight = s.facingRight ∧
      (step s noKeys v).isRunning = false := by
  simp [step, noKeys, h]

/-- Witness for C5 at the initial state. -/
theorem idle_step_idempotent_witness :
    step (step initialState noKeys none) noKeys none = step initialState noKeys none ∧
      (step initialState noKeys none).playerX = initialState.playerX ∧
      (step initialState noKeys none).playerY = initialState.playerY ∧
      (step initialState noKeys none).velocityY = initialState.velocityY ∧
      (step initialState noKeys none).facingRight = initialState.facingRight ∧
      (step initialState noKeys none).isRunning = false :=
  idle_step_idempotent initialState none rfl

/-- Counterexample to C6 as stated: the source sets `MOVE_SPEED = 7`, not
`6`, and one step with the right key held from the initial state yields
`playerX = 157`, not `156`. -/
theorem move_speed_six_refuted :
    MOVE_SPEED ≠ 6 ∧ (step initialState rightOnly none).playerX = 157 ∧
      ((157:ℚ) ≠ 156) := by
  refine ⟨by norm_num [MOVE_SPEED], ?_, by norm_num⟩
  norm_num [step, rightOnly, initialState, MOVE_SPEED, WORLD_WIDTH, min_def, max_def]

/-- Claim C6 (amended): the source sets `MOVE_SPEED = 7`, and from the
initial state one step with only the right key held yields `playerX = 157`,
`facingRight = true`, `isRunning = true`. -/
theorem right_step_from_initial :
    MOVE_SPEED = 7 ∧ (step initialState rightOnly none).playerX = 157 ∧
      (step initialState rightOnly none).facingRight = true ∧
      (step initialState rightOnly none).isRunning = true := by
  refine ⟨by norm_num [MOVE_SPEED], ?_, rfl, rfl⟩
  norm_num [step, rightOnly, initialState, MOVE_SPEED, WORLD_WIDTH, min_def, max_def]

/-- Counterexample to C7 as stated: at `screenX = -width` the source
renders the landmark (the skip test `screenX < -width` is strict), while
the claim says it is skipped. Concretely the cn-tower landmark at
`cameraX = 1000` has `screenX = -200 = -width` and is rendered. -/
theorem strict_culling_refuted :
    renderedLandmark ⟨"cn-tower", 800, "/game/toronto/landmarks/cn-tower.jpg", 200, 400⟩
        1000 none = true ∧
      ¬((800:ℚ) - 1000 > -(200:ℚ)) := by
  constructor
  · norm_num [renderedLandmark, effectiveWidth]
  · norm_num

/-- Claim C7 (amended): a landmark is rendered if and only if
`-width ≤ screenX` and `screenX ≤ effectiveWidth + 100` — the boundary
cases render (non-strict), since the skip test uses strict comparisons. -/
theorem landmark_culling_inclusive (lm : Landmark) (cameraX : ℚ) (v : Option ℚ) :
    renderedLandmark lm cameraX v = true ↔
      (-lm.width ≤ lm.x - cameraX ∧ lm.x - cameraX ≤ effectiveWidth v + 100) := by
  simp only [renderedLandmark]
  split_ifs with h
  · simp only [Bool.false_eq_true, false_iff, not_and, not_le]
    intro h1
    rcases h with h | h
    · linarith
    · linarith
  · push_neg at h
    simp only [true_iff]
    exact ⟨by linarith [h.1], by linarith [h.2]⟩

/-- Claim C8: with both horizontal keys held, left applies first and right
is evaluated second, so the final position is
`min (WORLD_WIDTH - 50) (max 50 (playerX - MOVE_SPEED) + MOVE_SPEED)`,
with `facingRight = true` and `isRunning = true`. -/
theorem left_right_tiebreak_right_wins (s : GameState) (j : Bool) (v : Option ℚ) :
    (step s ⟨true, true, j⟩ v).playerX
        = min (WORLD_WIDTH - 50) (max 50 (s.playerX - MOVE_SPEED) + MOVE_SPEED) ∧
      (step s ⟨true, true, j⟩ v).facingRight = true ∧
      (step s ⟨true, true, j⟩ v).isRunning = true :=
  ⟨rfl, rfl, rfl⟩

/-- Claim C9: the predicate "grounded implies zero vertical speed, and
`playerY` never ends a frame below the ground line" is preserved by every
simulation step. -/
theorem grounded_inv_preserved (s : GameState) (K : HeldKeys) (v : Option ℚ)
    (h : goodState s) : goodState (step s K v) := by
  obtain ⟨hv, hy⟩ := h
  obtain ⟨x, y, vy, sj, sr, sf, sc⟩ := s
  obtain ⟨l, r, j⟩ := K
  simp only [goodState] at hy ⊢
  cases sj
  · -- grounded before the step
    have hv0 : vy = 0 := hv rfl
    cases j
    · -- jump key not held: the vertical fields are unchanged
      exact ⟨fun _ => hv0, hy⟩
    · -- jump initiated this frame, then integrated
      by_cases hc : y + (JUMP_FORCE + GRAVITY) ≥ GROUND_Y
      · refine ⟨fun _ => ?_, ?_⟩
        · show (if y + (JUMP_FORCE + GRAVITY) ≥ GROUND_Y then (0:ℚ)
              else JUMP_FORCE + GRAVITY) = 0
          rw [if_pos hc]
        · show (if y + (JUMP_FORCE + GRAVITY) ≥ GROUND_Y then GROUND_Y
              else y + (JUMP_FORCE + GRAVITY)) ≤ GROUND_Y
          rw [if_pos hc]
      · refine ⟨fun hfalse => ?_, ?_⟩
        · exfalso
          have hjj : (if y + (JUMP_FORCE + GRAVITY) ≥ GROUND_Y then false
              else true) = false := hfalse
          rw [if_neg hc] at hjj
          simp at hjj
        · show (if y + (JUMP_FORCE + GRAVITY) ≥ GROUND_Y then GROUND_Y
              else y + (JUMP_FORCE + GRAVITY)) ≤ GROUND_Y
          rw [if_neg hc]
          linarith [lt_of_not_le hc]
  · -- airborne: the guard blocks re-trigger, gravity integrates
    cases j
    · by_cases hc : y + (vy + GRAVITY) ≥ GROUND_Y
      · refine ⟨fun _ => ?_, ?_⟩
        · show (if y + (vy + GRAVITY) ≥ GROUND_Y then (0:ℚ) else vy + GRAVITY) = 0
          rw [if_pos hc]
        · show (if y + (vy + GRAVITY) ≥ GROUND_Y then GROUND_Y
              else y + (vy + GRAVITY)) ≤ GROUND_Y
          rw [if_pos hc]
      · refine ⟨fun hfalse => ?_, ?_⟩
        · exfalso
          have hjj : (if y + (vy + GRAVITY) ≥ GROUND_Y then false
              else true) = false := hfalse
          rw [if_neg hc] at hjj
          simp at hjj
        · show (if y + (vy + GRAVITY) ≥ GROUND_Y then GROUND_Y
              else y + (vy + GRAVITY)) ≤ GROUND_Y
          rw [if_neg hc]
          linarith [lt_of_not_le hc]
    · by_cases hc : y + (vy + GRAVITY) ≥ GROUND_Y
      · refine ⟨fun _ => ?_, ?_⟩
        · show (if y + (vy + GRAVITY) ≥ GROUND_Y then (0:ℚ) else vy + GRAVITY) = 0
          rw [if_pos hc]
        · show (if y + (vy + GRAVITY) ≥ GROUND_Y then GROUND_Y
              else y + (vy + GRAVITY)) ≤ GROUND_Y
          rw [if_pos hc]
      · refine ⟨fun hfalse => ?_, ?_⟩
        · exfalso
          have hjj : (if y + (vy + GRAVITY) ≥ GROUND_Y then false
              else true) = false := hfalse
          rw [if_neg hc] at hjj
          simp at hjj
        · show (if y + (vy + GRAVITY) ≥ GROUND_Y then GROUND_Y
              else y + (vy + GRAVITY)) ≤ GROUND_Y
          rw [if_neg hc]
          linarith [lt_of_not_le hc]

/-- Witness for C9 at the initial state. -/
theorem grounded_inv_preserved_witness :
    goodState initialState ∧ goodState (step initialState noKeys none) :=
  ⟨⟨fun _ => rfl, le_refl _⟩,
    grounded_inv_preserved initialState noKeys none ⟨fun _ => rfl, le_refl _⟩⟩

/-- Claim C10: a measured viewport width of exactly `0` is falsy, so the
step behaves exactly as with an unavailable measurement, which in turn
equals using the fallback width `800`. -/
theorem zero_viewport_uses_fallback (s : GameState) (K : HeldKeys) :
    step s K (some 0) = step s K none ∧ step s K (some 0) = step s K (some 800) := by
  have h0 : effectiveWidth (some 0) = 800 := by norm_num [effectiveWidth]
  have h8 : effectiveWidth (some 800) = 800 := by norm_num [effectiveWidth]
  have hn : effectiveWidth none = 800 := rfl
  constructor <;> simp only [step, h0, h8, hn]

end SideScrollerGame
